import Mathlib

/-!
Verification of the SDR++ Community Edition scanner subsystem.

The definitions below are shallow embeddings of the C++ sources:
  * `misc_modules/scanner/src/ScannerPSD.cpp` (IQ ring buffer, PSD engine),
  * `misc_modules/scanner/src/main.cpp` (scan loop, CFAR detector,
    blacklist, squelch delta, tuning-profile cache, auto timing),
  * `core/src/signal_path/iq_frontend.cpp` (scanner FFT size setter).

Machine floats are embedded as exact rationals (every finite float is a
rational); `float`/`double` comparisons, `std::abs`, `std::clamp`,
`std::max`/`min` are exact on them, so the control flow of the embedded
functions coincides with the source control flow on representable inputs.
`size_t` counters wrap modulo 2^64, which the embedding keeps where the
source can underflow.  dB values produced through `log10f` are embedded
as real numbers via `Real.logb 10`.
-/

namespace ScannerCE

/-- Wrap modulus of a `size_t` counter (`std::atomic<size_t>` arithmetic). -/
def sizeT : ℕ := 2 ^ 64

/-! ## IQ ring buffer (`ScannerPSD.cpp`, lines 108-194)

State of the single-producer / single-consumer ring buffer inside
`ScannerPSD`: the sample storage `m_sampleBuffer` (capacity = 4 x FFT
size, fixed at `init`), the positions `m_writePos` / `m_readPos` and the
counter `m_samplesAvailable`.  Samples are complex floats, embedded as
pairs of rationals. -/

structure RingState where
  buf : List (ℚ × ℚ)
  writePos : ℕ
  readPos : ℕ
  avail : ℕ
deriving DecidableEq

/-- Writes the elements of `src` into `buf` starting at index `pos`
(`std::memcpy(&buf[pos], src, ...)`). -/
def storeSeg (buf : List (ℚ × ℚ)) (pos : ℕ) (src : List (ℚ × ℚ)) : List (ℚ × ℚ) :=
  src.enum.foldl (fun b p => b.set (pos + p.1) p.2) buf

/-- `ScannerPSD::writeToRingBuffer` (ScannerPSD.cpp:108-125): copy with
wraparound, advance the write position modulo the buffer size, and
increment `m_samplesAvailable` by `count` (`fetch_add`, no clamp). -/
def writeToRingBuffer (s : RingState) (data : List (ℚ × ℚ)) : RingState :=
  let bufSize := s.buf.length
  let count := data.length
  let firstPart := min count (bufSize - s.writePos)
  let buf1 := storeSeg s.buf s.writePos (data.take firstPart)
  let buf2 := if firstPart < count then storeSeg buf1 0 (data.drop firstPart) else buf1
  { buf := buf2
    writePos := (s.writePos + count) % bufSize
    readPos := s.readPos
    avail := (s.avail + count) % sizeT }

/-- `ScannerPSD::readFromRingBuffer` (ScannerPSD.cpp:127-153): fails when
fewer than `count` samples are available, otherwise copies `count`
samples with wraparound, advances the read position modulo the buffer
size and decrements `m_samplesAvailable` by `count`. -/
def readFromRingBuffer (s : RingState) (count : ℕ) : Option (List (ℚ × ℚ) × RingState) :=
  if s.avail < count then none
  else
    let bufSize := s.buf.length
    let firstPart := min count (bufSize - s.readPos)
    let frame := (s.buf.drop s.readPos).take firstPart ++ s.buf.take (count - firstPart)
    some (frame,
      { s with readPos := (s.readPos + count) % bufSize
               avail := s.avail - count })

/-- Hop size as computed in `ScannerPSD::init` (ScannerPSD.cpp:37-38):
`m_hopSize = (int)(fftSize * (1 - overlap))`, raised to at least 1. -/
def hopSize (fftSize : ℕ) (overlap : ℚ) : ℕ :=
  max 1 (Int.toNat ⌊(fftSize : ℚ) * (1 - overlap)⌋)

/-- One iteration of the frame-extraction loop of `ScannerPSD::feedSamples`
(ScannerPSD.cpp:175-191): guard `m_samplesAvailable >= m_fftSize`, extract
a frame of `fftSize` samples via `readFromRingBuffer`, then advance the
read position by `skipCount = fftSize - hop` once more (`fetch_add`
without a modulo by the buffer size) and subtract `skipCount` from
`m_samplesAvailable` (`fetch_sub` on a `size_t`, wrapping on underflow).
Returns the extracted frame and the updated state. -/
def feedLoopIter (fftSize hop : ℕ) (s : RingState) :
    Option (List (ℚ × ℚ) × RingState) :=
  if s.avail < fftSize then none
  else
    match readFromRingBuffer s fftSize with
    | none => none
    | some (frame, s1) =>
      let skipCount := fftSize - hop
      if 0 < skipCount then
        some (frame,
          { s1 with readPos := (s1.readPos + skipCount) % sizeT
                    avail := (s1.avail + sizeT - skipCount) % sizeT })
      else some (frame, s1)

/-- Ring-buffer state right after `ScannerPSD::init` (ScannerPSD.cpp:50-54):
storage of 4 x FFT size zeroed samples, positions and counter zero. -/
def initRing (fftSize : ℕ) : RingState :=
  { buf := List.replicate (fftSize * 4) (0, 0)
    writePos := 0
    readPos := 0
    avail := 0 }

/-! ## Blacklist (`main.cpp`, lines 1917-1922) -/

/-- `ScannerModule::isFrequencyBlacklisted`: true when some blacklisted
frequency is strictly within `blacklistTolerance` of the candidate. -/
def isFrequencyBlacklisted (blacklistedFreqs : List ℚ) (blacklistTolerance : ℚ)
    (frequency : ℚ) : Bool :=
  blacklistedFreqs.any fun b => |frequency - b| < blacklistTolerance

/-! ## Scanner FFT size setter (`iq_frontend.cpp`, lines 237-253) -/

/-- `IQFrontEnd::setScannerFFTSize`: a size of 0 or above 1048576 is
replaced by the safe default 8192; every other value is stored as-is. -/
def setScannerFFTSize (size : ℕ) : ℕ :=
  if size = 0 ∨ 1048576 < size then 8192 else size

/-! ## Automatic tuning-time adjustment (`main.cpp`, lines 1310-1340) -/

/-- `std::clamp(v, lo, hi)`. -/
def stdClamp (v lo hi : ℤ) : ℤ :=
  if v < lo then lo else if hi < v then hi else v

/-- One pass of the auto tuning-time block at the top of
`ScannerModule::worker` (main.cpp:1313-1340).  `safeRate` clamps
`scanRateHz` into `[MIN_SCAN_RATE, maxHz]` with `maxHz` depending on
`unlockHighSpeed`; when `tuningTimeAuto` holds and the clamped rate
changed since the last adjustment, the optimal time
`max(MIN_TUNING_TIME, BASE_TUNING_TIME * BASE_SCAN_RATE / safeRate)` is
computed and `tuningTime` is overwritten only when it differs from the
optimum by more than 10 ms.  Returns the new `(tuningTime,
lastAdjustedRate)` pair. -/
def autoTuneStep (scanRateHz : ℤ) (unlockHighSpeed tuningTimeAuto : Bool)
    (lastAdjustedRate tuningTime : ℤ) : ℤ × ℤ :=
  let maxHz : ℤ := if unlockHighSpeed then 200 else 50
  let safeRate := stdClamp scanRateHz 5 maxHz
  if tuningTimeAuto ∧ safeRate ≠ lastAdjustedRate then
    let optimalTime := max 10 ((250 * 50) / safeRate)
    if 10 < |tuningTime - optimalTime| then (optimalTime, safeRate)
    else (tuningTime, safeRate)
  else (tuningTime, lastAdjustedRate)

/-! ## Tuning-profile cache (`main.cpp`, lines 1963-1990)

The profile reference (`const TuningProfile*`, compared by address) is
embedded as a natural-number id; the cached triple mirrors
`lastAppliedProfile` / `lastAppliedVFO` / `lastProfileFrequency`. -/

structure ProfileCache where
  lastAppliedProfile : Option ℕ
  lastAppliedVFO : String
  lastProfileFrequency : ℚ
deriving DecidableEq

/-- `ScannerModule::applyTuningProfileSmart`: skip (returning `false`
without touching the VFO) when the same profile reference was last
applied to the same VFO within 1 kHz; otherwise invoke
`applyTuningProfileFast` (its success is the parameter `fastResult`,
since it talks to the external VFO interface) and cache the triple on
success.  The returned triple is (return value, whether
`applyTuningProfileFast` was invoked, new cache). -/
def applyTuningProfileSmart (pid : ℕ) (vfoName : String) (frequency : ℚ)
    (fastResult : Bool) (c : ProfileCache) : Bool × Bool × ProfileCache :=
  if c.lastAppliedProfile = some pid ∧ c.lastAppliedVFO = vfoName ∧
      |c.lastProfileFrequency - frequency| < 1000 then
    (false, false, c)
  else if fastResult then
    (true, true, ⟨some pid, vfoName, frequency⟩)
  else
    (false, true, c)

/-! ## Squelch delta and Dwell exit paths (`main.cpp`)

The scanner fields relevant to squelch restoration, plus the observable
VFO squelch state.  `ifaceOk` models whether the radio interface calls
(`callInterface` on the selected VFO) succeed. -/

structure ScanState where
  running : Bool
  receiving : Bool
  tuning : Bool
  scanUp : Bool
  reverseLock : Bool
  squelchDeltaActive : Bool
  originalSquelchLevel : ℚ
  vfoSquelchLevel : ℚ
  vfoSquelchEnabled : Bool
  ifaceOk : Bool
  current : ℚ
  startFreq : ℚ
  blacklistedFreqs : List ℚ
deriving DecidableEq

/-- `ScannerModule::setRadioSquelchLevel` (main.cpp:2628-2641): writes the
level through the radio interface when it is available. -/
def setRadioSquelchLevel (s : ScanState) (level : ℚ) : ScanState :=
  if s.ifaceOk then { s with vfoSquelchLevel := level } else s

/-- `ScannerModule::restoreSquelchLevel` (main.cpp:2693-2724): when the
delta is active, query whether squelch is enabled (on interface failure
just clear the flag), write back `originalSquelchLevel` if enabled, and
clear `squelchDeltaActive`. -/
def restoreSquelchLevel (s : ScanState) : ScanState :=
  if s.squelchDeltaActive then
    if ¬ s.ifaceOk then { s with squelchDeltaActive := false }
    else if s.vfoSquelchEnabled then
      { setRadioSquelchLevel s s.originalSquelchLevel with squelchDeltaActive := false }
    else { s with squelchDeltaActive := false }
  else s

/-- `ScannerModule::applySquelchDelta` (main.cpp:2643-2691): when the
delta is not yet active and squelch is enabled, save the current VFO
level as `originalSquelchLevel`, lower the VFO squelch by the delta (or
to noise floor + delta in auto mode, bounded below by `MIN_SQUELCH`
= -100), and set `squelchDeltaActive`. -/
def applySquelchDelta (squelchDelta : ℚ) (squelchDeltaAuto : Bool) (noiseFloor : ℚ)
    (s : ScanState) : ScanState :=
  if ¬ s.squelchDeltaActive then
    if ¬ s.ifaceOk then s
    else if ¬ s.vfoSquelchEnabled then s
    else
      let original := s.vfoSquelchLevel
      let deltaLevel :=
        if squelchDeltaAuto then max (noiseFloor + min (max squelchDelta 0) 20) (-100)
        else max (original - squelchDelta) (-100)
      { setRadioSquelchLevel { s with originalSquelchLevel := original } deltaLevel with
          squelchDeltaActive := true }
  else s

/-- Dwell exit on signal loss (main.cpp:1518-1526): once the linger time
has elapsed, restore the squelch if the delta is active and clear
`receiving`. -/
def dwellSignalLostExit (s : ScanState) : ScanState :=
  let s1 := if s.squelchDeltaActive then restoreSquelchLevel s else s
  { s1 with receiving := false }

/-- `ScannerModule::stop` (main.cpp:1104-1144), squelch-relevant part:
early-return when not running, otherwise clear `running` and restore the
squelch if the delta is active. -/
def stopCommand (s : ScanState) : ScanState :=
  if ¬ s.running then s
  else
    let s1 : ScanState := { s with running := false }
    if s1.squelchDeltaActive then restoreSquelchLevel s1 else s1

/-- `ScannerModule::reset` (main.cpp:1146-1158): return to the start
frequency, clear receiving/tuning/reverseLock, and restore the squelch
if the delta is active. -/
def resetCommand (s : ScanState) : ScanState :=
  let s1 : ScanState := { s with current := s.startFreq, receiving := false,
                                 tuning := false, reverseLock := false }
  if s1.squelchDeltaActive then restoreSquelchLevel s1 else s1

/-- The `<<` direction button (main.cpp:743-748): sets `reverseLock`,
clears `receiving` and scans down.  No squelch handling. -/
def reverseButton (s : ScanState) : ScanState :=
  { s with reverseLock := true, receiving := false, scanUp := false }

/-- The `>>` direction button (main.cpp:760-765): sets `reverseLock`,
clears `receiving` and scans up.  No squelch handling. -/
def advanceButton (s : ScanState) : ScanState :=
  { s with reverseLock := true, receiving := false, scanUp := true }

/-- The "Blacklist Current Frequency" button (main.cpp:635-667): when the
current frequency is not already within tolerance of a blacklist entry,
append it and clear `receiving`.  No squelch handling. -/
def blacklistCurrentButton (blacklistTolerance : ℚ) (s : ScanState) : ScanState :=
  if isFrequencyBlacklisted s.blacklistedFreqs blacklistTolerance s.current then s
  else { s with blacklistedFreqs := s.blacklistedFreqs ++ [s.current],
                receiving := false }

/-- The worker's source-stopped exit (main.cpp:1363-1368): when the radio
source is no longer running the worker clears `running` and returns
immediately.  No squelch handling. -/
def sourceStoppedExit (s : ScanState) : ScanState :=
  { s with running := false }

/-! ## CFAR detection (`main.cpp`, `ScannerModule::getMaxLevelCFAR`,
lines 2401-2603)

The PSD snapshot is a list of optional rationals: `some v` is a finite
float value in dBFS, `none` a non-finite one (`std::isfinite` fails).
Bin geometry (`centerBin`, `widthBins`, `guardBins`, `refBins`) is taken
in bins, as produced by `absHzToDcBin` / `hzToBins`. -/

/-- Reads `data[i]` guarded by the loops' `i < 0 || i >= dataWidth`
checks; non-finite entries read as `none`. -/
def dataAt (data : List (Option ℚ)) (i : ℤ) : Option ℚ :=
  if i < 0 then none else (data.getD i.toNat none)

/-- The inclusive index list of a C loop `for (i = a; i <= b; i++)`. -/
def intRange (a b : ℤ) : List ℤ :=
  (List.range (b + 1 - a).toNat).map fun n => a + n

/-- The signal-region maximum loop (main.cpp:2468-2476): fold over the
region keeping the running maximum (starting from `-INFINITY`, embedded
as `none`) and its arg-max bin (starting from the center bin). -/
def sigRegionMax (data : List (Option ℚ)) (low high center : ℤ) : Option ℚ × ℤ :=
  (intRange low high).foldl
    (fun acc i =>
      match dataAt data i with
      | none => acc
      | some v =>
        match acc.1 with
        | none => (some v, i)
        | some m => if m < v then (some v, i) else acc)
    (none, center)

/-- Collects the finite values of one reference range
(main.cpp:2505-2512). -/
def collectRef (data : List (Option ℚ)) (lo hi : ℤ) : List ℚ :=
  (intRange lo hi).filterMap (dataAt data)

/-- Insertion into a sorted list, for `std::sort` on the reference
values. -/
def insertSortedQ (x : ℚ) : List ℚ → List ℚ
  | [] => [x]
  | y :: ys => if x ≤ y then x :: y :: ys else y :: insertSortedQ x ys

/-- Sorting of the reference values (`std::sort`). -/
def sortQ : List ℚ → List ℚ
  | [] => []
  | x :: xs => insertSortedQ x (sortQ xs)

/-- The median computation of main.cpp:2536-2542: sort, then average the
two middle elements for an even count or take the middle one for an odd
count. -/
def medianQ (l : List ℚ) : ℚ :=
  let sorted := sortQ l
  if sorted.length % 2 = 0 then
    (sorted.getD (sorted.length / 2 - 1) 0 + sorted.getD (sorted.length / 2) 0) / 2
  else sorted.getD (sorted.length / 2) 0

/-- Result triple of the CFAR detector: the signal-region maximum (after
the `-100` default when no finite value was found), the noise floor
passed back through `noiseFloorDb`, and the detection decision. -/
structure CfarResult where
  maxSignal : ℚ
  noiseFloor : ℚ
  detected : Bool
deriving DecidableEq

/-- Shared tail of the CFAR computation (main.cpp:2468-2576), after the
reference regions have been determined: signal-region maximum with
default `-100`, reference collection with fallback to all bins outside
the region of interest, median noise floor with default `-80`, and the
decision `maxSignal >= noiseFloor + thresholdDb && maxSignal > -90`. -/
def cfarWithRegions (data : List (Option ℚ)) (lowSignalBin highSignalBin center : ℤ)
    (regions : List (ℤ × ℤ)) (thresholdDb : ℚ) : CfarResult :=
  let ms := sigRegionMax data lowSignalBin highSignalBin center
  let maxSignal := match ms.1 with | none => (-100 : ℚ) | some v => v
  let refs0 := regions.foldl (fun acc r => acc ++ collectRef data r.1 r.2) []
  let refValues :=
    if refs0.isEmpty then
      ((intRange 0 ((data.length : ℤ) - 1)).filter
        (fun i => i < lowSignalBin ∨ highSignalBin < i)).filterMap (dataAt data)
    else refs0
  let noiseFloor := if refValues.isEmpty then (-80 : ℚ) else medianQ refValues
  { maxSignal := maxSignal
    noiseFloor := noiseFloor
    detected := decide (noiseFloor + thresholdDb ≤ maxSignal) && decide ((-90 : ℚ) < maxSignal) }

/-- The reference regions as the code computes them (main.cpp:2462-2465,
2491-2499): both ends of each raw range are clamped, the low range with
`max(0, .)` and the high range with `min(dataWidth-1, .)`, and a range
is kept when `start <= end`. -/
def codeRefRegions (dataWidth lowSignalBin highSignalBin guardBins refBins : ℤ) :
    List (ℤ × ℤ) :=
  let lowRefStart := max 0 (lowSignalBin - guardBins - refBins)
  let lowRefEnd := max 0 (lowSignalBin - guardBins - 1)
  let highRefStart := min (dataWidth - 1) (highSignalBin + guardBins + 1)
  let highRefEnd := min (dataWidth - 1) (highSignalBin + guardBins + refBins)
  (if lowRefStart ≤ lowRefEnd then [(lowRefStart, lowRefEnd)] else []) ++
  (if highRefStart ≤ highRefEnd then [(highRefStart, highRefEnd)] else [])

/-- Modelled from the spec's words (section 4.4, step 3): the reference
regions are `[k-w/2-g-r, k-w/2-g-1]` and `[k+w/2+g+1, k+w/2+g+r]`, each
clipped to `[0, N-1]` as an interval intersection, and dropped when the
clipped interval is empty. -/
def specRefRegions (dataWidth lowSignalBin highSignalBin guardBins refBins : ℤ) :
    List (ℤ × ℤ) :=
  let lo1 := max 0 (lowSignalBin - guardBins - refBins)
  let hi1 := min (dataWidth - 1) (lowSignalBin - guardBins - 1)
  let lo2 := max 0 (highSignalBin + guardBins + 1)
  let hi2 := min (dataWidth - 1) (highSignalBin + guardBins + refBins)
  (if lo1 ≤ hi1 then [(lo1, hi1)] else []) ++
  (if lo2 ≤ hi2 then [(lo2, hi2)] else [])

/-- `ScannerModule::getMaxLevelCFAR` from the point where the PSD
snapshot and the bin geometry are fixed: region of interest
`[max(0, c - w/2), min(N-1, c + w/2)]`, the code's clamped reference
regions, then the shared CFAR tail. -/
def getMaxLevelCFAR (data : List (Option ℚ)) (centerBin widthBins guardBins refBins : ℤ)
    (thresholdDb : ℚ) : CfarResult :=
  let dataWidth : ℤ := data.length
  let halfWidth := widthBins.tdiv 2
  let lowSignalBin := max 0 (centerBin - halfWidth)
  let highSignalBin := min (dataWidth - 1) (centerBin + halfWidth)
  cfarWithRegions data lowSignalBin highSignalBin centerBin
    (codeRefRegions dataWidth lowSignalBin highSignalBin guardBins refBins) thresholdDb

/-- Modelled from the spec's words: the same detector with the spec's
clipped reference regions instead of the code's clamped ones. -/
def specMaxLevelCFAR (data : List (Option ℚ)) (centerBin widthBins guardBins refBins : ℤ)
    (thresholdDb : ℚ) : CfarResult :=
  let dataWidth : ℤ := data.length
  let halfWidth := widthBins.tdiv 2
  let lowSignalBin := max 0 (centerBin - halfWidth)
  let highSignalBin := min (dataWidth - 1) (centerBin + halfWidth)
  cfarWithRegions data lowSignalBin highSignalBin centerBin
    (specRefRegions dataWidth lowSignalBin highSignalBin guardBins refBins) thresholdDb

/-! ## Window functions and the PSD spectral stage (`ScannerPSD.cpp`)

dB values and window coefficients live in `ℝ`; `log10f` is embedded as
`Real.logb 10` and the FFTW forward transform as the unnormalized DFT
`X[k] = sum_n x[n] * exp(-2 pi i k n / N)`. -/

inductive WindowType where
  | RECTANGULAR
  | BLACKMAN
  | BLACKMAN_HARRIS_7
  | HAMMING
  | HANN
deriving DecidableEq

open Real in
/-- `ScannerPSD::generateWindow` (ScannerPSD.cpp:473-521): the window
coefficient at index `i` for FFT size `N`, with `ratio = i / (N - 1)`. -/
noncomputable def windowVal (t : WindowType) (N i : ℕ) : ℝ :=
  let ratio : ℝ := (i : ℝ) / ((N : ℝ) - 1)
  match t with
  | .RECTANGULAR => 1
  | .BLACKMAN =>
      0.42 - 0.5 * cos (2 * π * ratio) + 0.08 * cos (4 * π * ratio)
  | .BLACKMAN_HARRIS_7 =>
      0.27105140069342 - 0.43329793923448 * cos (2 * π * ratio)
        + 0.21812299954311 * cos (4 * π * ratio)
        - 0.06592544638803 * cos (6 * π * ratio)
        + 0.01081174209837 * cos (8 * π * ratio)
        - 0.00077658482522 * cos (10 * π * ratio)
        + 0.00001388721735 * cos (12 * π * ratio)
  | .HAMMING => 0.54 - 0.46 * cos (2 * π * ratio)
  | .HANN => 0.5 * (1 - cos (2 * π * ratio))

/-- `m_windowU` (ScannerPSD.cpp:524-528): the RMS window power
`(sum_i w[i]^2) / N`. -/
noncomputable def windowU (t : WindowType) (N : ℕ) : ℝ :=
  (∑ i ∈ Finset.range N, windowVal t N i ^ 2) / N

/-- `m_psdScale` (ScannerPSD.cpp:529): `1 / fftSize / windowU`. -/
noncomputable def psdScale (t : WindowType) (N : ℕ) : ℝ :=
  1 / (N : ℝ) / windowU t N

/-- The FFTW forward DFT (`fftwf_plan_dft_1d(..., FFTW_FORWARD, ...)`):
`X[k] = sum_{n < N} x[n] * exp(-2 pi i k n / N)`, unnormalized. -/
noncomputable def dftOut (N : ℕ) (x : ℕ → ℂ) (k : ℕ) : ℂ :=
  ∑ n ∈ Finset.range N, x n * Complex.exp (-(2 * Real.pi * Complex.I * k * n) / N)

/-- The windowed FFT input of `processFrame` (ScannerPSD.cpp:246-254):
`m_fftIn[i] = frame[i] * m_window[i]`. -/
noncomputable def windowedInput (t : WindowType) (N : ℕ) (frame : ℕ → ℂ) (n : ℕ) : ℂ :=
  frame n * windowVal t N n

/-- The per-bin dB value of `processFrame` (ScannerPSD.cpp:279-283):
`powerDb = 10 * log10(max(1e-15, |X|^2)) - 20 * log10(fftSize)`, the
waterfall scaling. -/
noncomputable def codeBinDb (N : ℕ) (X : ℂ) : ℝ :=
  10 * Real.logb 10 (max 1e-15 (Complex.normSq X)) - 20 * Real.logb 10 (N : ℝ)

/-- Modelled from the spec's words (section 4.3, step d): the per-bin dB
value `10 * log10(max(p, 1e-20))` with
`p = (X.re^2 + X.im^2) * psd_scale`. -/
noncomputable def claimBinDb (t : WindowType) (N : ℕ) (X : ℂ) : ℝ :=
  10 * Real.logb 10 (max (Complex.normSq X * psdScale t N) 1e-20)

/-- The DC-centering write loop of `processFrame` (ScannerPSD.cpp:276-287)
up to iteration `i`: bin value `v j` is stored at index
`(j + N/2) % N` of the write buffer. -/
noncomputable def psdWriteLoop (N : ℕ) (v : ℕ → ℝ) : ℕ → List ℝ → List ℝ
  | 0, buf => buf
  | i + 1, buf => (psdWriteLoop N v i buf).set ((i + N / 2) % N) (v i)

/-- The full write buffer produced by the DC-centering loop. -/
noncomputable def psdWriteBuf (N : ℕ) (v : ℕ → ℝ) (buf : List ℝ) : List ℝ :=
  psdWriteLoop N v N buf

/-! ## `ScannerPSD::processFrame` as a state transformer
(ScannerPSD.cpp:214-329) -/

/-- The PSD-engine state touched by `processFrame`: configuration, the
triple buffer with its three rotation indices, and the first-frame
flag. -/
structure PsdState where
  initialized : Bool
  fftSize : ℕ
  windowType : WindowType
  alpha : ℝ
  firstFrame : Bool
  psdBuf0 : List ℝ
  psdBuf1 : List ℝ
  psdBuf2 : List ℝ
  readBuffer : ℕ
  writeBuffer : ℕ
  processBuffer : ℕ

/-- `m_psdBuffers[i]`. -/
def getPsdBuf (s : PsdState) (i : ℕ) : List ℝ :=
  match i with
  | 0 => s.psdBuf0
  | 1 => s.psdBuf1
  | _ => s.psdBuf2

/-- Replaces `m_psdBuffers[i]`. -/
def setPsdBuf (s : PsdState) (i : ℕ) (buf : List ℝ) : PsdState :=
  match i with
  | 0 => { s with psdBuf0 := buf }
  | 1 => { s with psdBuf1 := buf }
  | _ => { s with psdBuf2 := buf }

/-- `std::vector::resize(n, v)`: truncate or pad with `v` to length `n`
(a no-op when the length already matches, as in ScannerPSD.cpp:269-273). -/
def resizeList (n : ℕ) (v : ℝ) (l : List ℝ) : List ℝ :=
  if l.length = n then l else l.take n ++ List.replicate (n - l.length) v

/-- The data-validity scan of `processFrame` (ScannerPSD.cpp:229-235):
some sample among the first `fftSize` has `|re| > 1e-6` or
`|im| > 1e-6`.  Samples are float pairs, embedded as exact rationals. -/
def hasValidData (fftSize : ℕ) (frame : List (ℚ × ℚ)) : Bool :=
  (frame.take fftSize).any fun z =>
    decide ((1 : ℚ) / 1000000 < |z.1|) || decide ((1 : ℚ) / 1000000 < |z.2|)

/-- A frame sample as a complex number. -/
noncomputable def sampleToC (z : ℚ × ℚ) : ℂ :=
  ((z.1 : ℝ) : ℂ) + ((z.2 : ℝ) : ℂ) * Complex.I

/-- `ScannerPSD::processFrame` (ScannerPSD.cpp:214-329): reject when
uninitialized or the frame is short; reject (without touching any state)
when the frame has no sample above the 1e-6 validity threshold;
otherwise window the frame, run the forward FFT, fill the write buffer
with dB values at DC-centered indices, apply the first-frame copy or the
EMA into the process buffer, and rotate the three buffer indices. -/
noncomputable def processFrame (frame : List (ℚ × ℚ)) (s : PsdState) : Bool × PsdState :=
  if ¬ s.initialized ∨ frame.length < s.fftSize then (false, s)
  else if ¬ hasValidData s.fftSize frame then (false, s)
  else
    let N := s.fftSize
    let wIdx := s.writeBuffer
    let pIdx := s.processBuffer
    let s1 : PsdState :=
      { s with psdBuf0 := resizeList N (-200) s.psdBuf0
               psdBuf1 := resizeList N (-200) s.psdBuf1
               psdBuf2 := resizeList N (-200) s.psdBuf2 }
    let X : ℕ → ℂ :=
      dftOut N (windowedInput s.windowType N fun n => sampleToC (frame.getD n (0, 0)))
    let newWrite := psdWriteBuf N (fun i => codeBinDb N (X i)) (getPsdBuf s1 wIdx)
    let s2 := setPsdBuf s1 wIdx newWrite
    let newProcess :=
      if s.firstFrame then newWrite
      else (newWrite.zip (getPsdBuf s2 pIdx)).map
        fun wp => s.alpha * wp.1 + (1 - s.alpha) * wp.2
    let s3 := setPsdBuf s2 pIdx newProcess
    (true,
      { s3 with firstFrame := false
                writeBuffer := (wIdx + 1) % 3
                processBuffer := (pIdx + 1) % 3
                readBuffer := (s.readBuffer + 1) % 3 })

/-! ## Concrete fixtures used by the counterexamples and witnesses -/

/-- A scanner state in the middle of a Dwell with the squelch delta
applied: the VFO squelch was lowered from -50 to -40 dB and the original
level is saved. -/
def dwellState0 : ScanState :=
  { running := true, receiving := true, tuning := false, scanUp := true
    reverseLock := false, squelchDeltaActive := true
    originalSquelchLevel := -50, vfoSquelchLevel := -40
    vfoSquelchEnabled := true, ifaceOk := true
    current := 100000000, startFreq := 88000000, blacklistedFreqs := [] }

/-- A freshly initialized one-bin PSD state. -/
noncomputable def psdState0 : PsdState :=
  { initialized := true, fftSize := 1, windowType := .RECTANGULAR
    alpha := 0, firstFrame := true
    psdBuf0 := [-200], psdBuf1 := [-200], psdBuf2 := [-200]
    readBuffer := 0, writeBuffer := 1, processBuffer := 2 }

/-! # Theorems -/

/-- Folding `List.set` over an enumeration never changes the length. -/
theorem foldlSet_length (src : List (ℕ × (ℚ × ℚ))) (g : ℕ → ℕ) :
    ∀ buf : List (ℚ × ℚ),
      (src.foldl (fun b p => b.set (g p.1) p.2) buf).length = buf.length := by
  induction src with
  | nil => intro buf; rfl
  | cons hd tl ih =>
      intro buf
      simpa [List.length_set] using ih (buf.set (g hd.1) hd.2)

/-- `storeSeg` never changes the buffer length. -/
theorem storeSeg_length (buf : List (ℚ × ℚ)) (pos : ℕ) (src : List (ℚ × ℚ)) :
    (storeSeg buf pos src).length = buf.length :=
  foldlSet_length src.enum (fun x => pos + x) buf

/-- C1, counterexample: a single producer write of 5 samples into the
ring buffer of a PSD engine with FFT size 1 (capacity 4 x 1 = 4) leaves
`m_samplesAvailable = 5`, strictly above the capacity, refuting
"samples_available stays at most the buffer capacity"; no drop counter
exists in `writeToRingBuffer` at all. -/
theorem writeToRingBuffer_avail_can_exceed_capacity :
    (writeToRingBuffer (initRing 1) [(1, 0), (2, 0), (3, 0), (4, 0), (5, 0)]).buf.length = 4 ∧
    (writeToRingBuffer (initRing 1) [(1, 0), (2, 0), (3, 0), (4, 0), (5, 0)]).avail = 5 ∧
    ¬ (writeToRingBuffer (initRing 1) [(1, 0), (2, 0), (3, 0), (4, 0), (5, 0)]).avail ≤
      (writeToRingBuffer (initRing 1) [(1, 0), (2, 0), (3, 0), (4, 0), (5, 0)]).buf.length := by
  decide

/-- C1, amended: every producer write stores its samples with wraparound
(overwriting the oldest data in place, without allocation) and increments
`m_samplesAvailable` by exactly the sample count, with no clamping at the
capacity and no drop counter; the counter is a `size_t`, so it cannot be
negative, but it can exceed the capacity. -/
theorem writeToRingBuffer_adds_count_unclamped (s : RingState) (data : List (ℚ × ℚ)) :
    (writeToRingBuffer s data).avail = (s.avail + data.length) % sizeT ∧
    (writeToRingBuffer s data).buf.length = s.buf.length ∧
    (writeToRingBuffer s data).writePos = (s.writePos + data.length) % s.buf.length ∧
    (writeToRingBuffer s data).readPos = s.readPos := by
  refine ⟨rfl, ?_, rfl, rfl⟩
  show (if _ then _ else _ : List (ℚ × ℚ)).length = _
  split
  · rw [storeSeg_length, storeSeg_length]
  · rw [storeSeg_length]

/-- C2: evaluating one iteration of the frame-extraction loop of
`feedSamples` with `N = 8`, `overlap = 0.5` (so `H = 4`) on a ring state
holding 16 samples: the read position advances from 0 to 12 and
`m_samplesAvailable` drops from 16 to 4, i.e. both change by
`2N - H = 12`, not by the hop `H = 4` as the specification states. -/
theorem feedLoopIter_consumes_2N_minus_H :
    hopSize 8 (1 / 2) = 4 ∧
    (feedLoopIter 8 (hopSize 8 (1 / 2))
        { buf := List.replicate 32 ((0 : ℚ), (0 : ℚ)), writePos := 0, readPos := 0,
          avail := 16 }).map
        (fun r => (r.1.length, r.2.writePos, r.2.readPos, r.2.avail)) =
      some (8, 0, 12, 4) := by
  have h : hopSize 8 (1 / 2) = 4 := by
    norm_num [hopSize]
    rfl
  refine ⟨h, ?_⟩
  rw [h]
  decide

/-- C6, counterexample: with blacklist `[100]` and tolerance `1`, the
candidate `101` satisfies `|101 - 100| <= tolerance` yet
`isFrequencyBlacklisted` returns `false`, because the code compares with
a strict `<`. -/
theorem isFrequencyBlacklisted_boundary_excluded :
    |(101 : ℚ) - 100| ≤ 1 ∧ isFrequencyBlacklisted [100] 1 101 = false := by
  norm_num [isFrequencyBlacklisted]

/-- C6, amended: for every blacklisted frequency `f` and every candidate
strictly within the tolerance (`|f' - f| < tolerance`), the predicate
returns `true`. -/
theorem isFrequencyBlacklisted_strict_tolerance (freqs : List ℚ) (tol f fc : ℚ)
    (hf : f ∈ freqs) (h : |fc - f| < tol) :
    isFrequencyBlacklisted freqs tol fc = true := by
  simp only [isFrequencyBlacklisted, List.any_eq_true, decide_eq_true_eq]
  exact ⟨f, hf, h⟩

/-- C6 witness: instantiation of the amended tolerance theorem at
blacklist `[100]`, tolerance `1`, candidate `100.5`. -/
theorem isFrequencyBlacklisted_strict_tolerance_witness :
    ((100 : ℚ) ∈ [(100 : ℚ)] ∧ |(100.5 : ℚ) - 100| < 1) ∧
    isFrequencyBlacklisted [100] 1 100.5 = true :=
  ⟨⟨by norm_num, by norm_num [abs_lt]⟩,
    isFrequencyBlacklisted_strict_tolerance [100] 1 100 100.5 (by norm_num)
      (by norm_num [abs_lt])⟩

/-- C7, counterexample: `SET_SCANNER_FFT_SIZE(1000)` stores 1000, which
is below `2^10` and not a power of two, refuting the claimed clamping to
`[2^10, 2^20]` with rounding to a power of two. -/
theorem setScannerFFTSize_stores_small_non_power_of_two :
    setScannerFFTSize 1000 = 1000 ∧ 1000 < 2 ^ 10 ∧ ∀ k < 32, (1000 : ℕ) ≠ 2 ^ k := by
  decide

/-- C7, amended: the setter only guards the top: an argument of 0 or
above `2^20` is replaced by the default 8192, and every other argument
(including non-powers-of-two and values below `2^10`) is stored
unchanged; the stored value is always positive and at most `2^20`. -/
theorem setScannerFFTSize_top_clamp_only :
    (∀ size : ℕ, 0 < setScannerFFTSize size ∧ setScannerFFTSize size ≤ 2 ^ 20 ∧
      (setScannerFFTSize size = size ∨ setScannerFFTSize size = 8192)) ∧
    setScannerFFTSize 0 = 8192 ∧ setScannerFFTSize (2 ^ 20 + 1) = 8192 ∧
    setScannerFFTSize 1000 = 1000 ∧ setScannerFFTSize (2 ^ 20) = 2 ^ 20 := by
  refine ⟨fun size => ?_, by decide, by decide, by decide, by decide⟩
  unfold setScannerFFTSize
  split
  · omega
  · next h => push_neg at h; omega

/-- C8, counterexample: at `scanRateHz = 100` with `unlockHighSpeed`
off and the default `tuningTime = 250`, the worker clamps the rate to 50
and leaves the tuning time at 250 ms, which is neither
`max(10, 250 * 50 / 100) = 125` nor inside `[120, 130]`. -/
theorem autoTuneStep_ignores_unclamped_rate :
    (autoTuneStep 100 false true 0 250).1 = 250 ∧
    ¬ (120 ≤ (autoTuneStep 100 false true 0 250).1 ∧
        (autoTuneStep 100 false true 0 250).1 ≤ 130) ∧
    (autoTuneStep 100 false true 0 250).1 ≠ max 10 ((250 * 50) / 100) := by
  decide

/-- C8, amended: when auto adjustment is enabled, the rate differs from
the one last adjusted for, and the current tuning time is more than
10 ms away from the optimum, the tuning time becomes
`max(MIN_TUNING_TIME, BASE_TUNING_TIME * BASE_SCAN_RATE / safeRate)`
where `safeRate` is `scanRateHz` clamped into `[5, unlock ? 200 : 50]`
(exact integer arithmetic). -/
theorem autoTuneStep_clamped_formula (rate : ℤ) (unlock : Bool) (last t : ℤ)
    (hchanged : stdClamp rate 5 (if unlock then 200 else 50) ≠ last)
    (hfar : 10 < |t - max 10 ((250 * 50) / stdClamp rate 5 (if unlock then 200 else 50))|) :
    (autoTuneStep rate unlock true last t).1 =
      max 10 (12500 / stdClamp rate 5 (if unlock then 200 else 50)) := by
  simp only [autoTuneStep]
  rw [if_pos ⟨trivial, hchanged⟩, if_pos hfar]
  norm_num

/-- C8 witness: with high speed unlocked, rate 100 and default 250 ms,
the amended formula applies and produces 125 ms (inside `[120, 130]`);
at rate 25 the step yields 500 ms. -/
theorem autoTuneStep_clamped_formula_witness :
    (stdClamp 100 5 (if true then 200 else 50) ≠ 0 ∧
      10 < |(250 : ℤ) - max 10 ((250 * 50) / stdClamp 100 5 (if true then 200 else 50))|) ∧
    (autoTuneStep 100 true true 0 250).1 =
      max 10 (12500 / stdClamp 100 5 (if true then 200 else 50)) ∧
    (autoTuneStep 100 true true 0 250).1 = 125 ∧
    (autoTuneStep 25 false true 0 250).1 = 500 :=
  ⟨⟨by decide, by decide⟩,
    autoTuneStep_clamped_formula 100 true 0 250 (by decide) (by decide),
    by decide, by decide⟩

/-- C9: if `applyTuningProfileSmart` actually applied a profile
(returned `true`), an immediately following call with the same profile
reference, the same VFO name and a frequency within 1 kHz is a no-op:
the cache hit returns `false`, `applyTuningProfileFast` is not invoked
(no commands are re-sent), and the cache is unchanged. -/
theorem applyTuningProfileSmart_second_apply_noop (c : ProfileCache) (pid : ℕ)
    (vfo : String) (f fc : ℚ) (b bc : Bool)
    (h1 : (applyTuningProfileSmart pid vfo f b c).1 = true)
    (h2 : |f - fc| < 1000) :
    applyTuningProfileSmart pid vfo fc bc (applyTuningProfileSmart pid vfo f b c).2.2 =
      (false, false, (applyTuningProfileSmart pid vfo f b c).2.2) := by
  by_cases hhit : c.lastAppliedProfile = some pid ∧ c.lastAppliedVFO = vfo ∧
      |c.lastProfileFrequency - f| < 1000
  · unfold applyTuningProfileSmart at h1
    rw [if_pos hhit] at h1
    simp at h1
  · cases b with
    | false =>
        unfold applyTuningProfileSmart at h1
        rw [if_neg hhit] at h1
        simp at h1
    | true =>
        have hval : applyTuningProfileSmart pid vfo f true c =
            (true, true, ⟨some pid, vfo, f⟩) := by
          unfold applyTuningProfileSmart
          rw [if_neg hhit]
          rfl
        rw [hval]
        show applyTuningProfileSmart pid vfo fc bc ⟨some pid, vfo, f⟩ =
          (false, false, ⟨some pid, vfo, f⟩)
        unfold applyTuningProfileSmart
        rw [if_pos ⟨rfl, rfl, h2⟩]

/-- C9 witness: a fresh cache, profile id 1 on VFO "Radio" at
100 MHz, then a second call 500 Hz away. -/
theorem applyTuningProfileSmart_second_apply_noop_witness :
    ((applyTuningProfileSmart 1 "Radio" 100000000 true ⟨none, "", 0⟩).1 = true ∧
      |(100000000 : ℚ) - 100000500| < 1000) ∧
    applyTuningProfileSmart 1 "Radio" 100000500 true
        (applyTuningProfileSmart 1 "Radio" 100000000 true ⟨none, "", 0⟩).2.2 =
      (false, false, (applyTuningProfileSmart 1 "Radio" 100000000 true ⟨none, "", 0⟩).2.2) :=
  ⟨⟨by simp [applyTuningProfileSmart], by norm_num [abs_lt]⟩,
    applyTuningProfileSmart_second_apply_noop ⟨none, "", 0⟩ 1 "Radio" 100000000 100000500
      true true (by simp [applyTuningProfileSmart]) (by norm_num [abs_lt])⟩

/-- C4: from a Dwell with the squelch delta active (VFO squelch lowered
to -40, original -50 saved), the `<<` direction button, the
"Blacklist Current Frequency" button, and the source-stopped worker exit
followed by `stop()` (which early-returns because the worker already
cleared `running`) all leave the Dwell/receiving state with
`squelchDeltaActive` still set and the VFO squelch still at the delta
level instead of the saved original. -/
theorem dwell_exits_skip_squelch_restore :
    ((reverseButton dwellState0).receiving = false ∧
      (reverseButton dwellState0).squelchDeltaActive = true ∧
      (reverseButton dwellState0).vfoSquelchLevel = -40) ∧
    ((blacklistCurrentButton 1000 dwellState0).receiving = false ∧
      (blacklistCurrentButton 1000 dwellState0).squelchDeltaActive = true) ∧
    ((stopCommand (sourceStoppedExit dwellState0)).running = false ∧
      (stopCommand (sourceStoppedExit dwellState0)).squelchDeltaActive = true ∧
      (stopCommand (sourceStoppedExit dwellState0)).vfoSquelchLevel = -40 ∧
      (stopCommand (sourceStoppedExit dwellState0)).vfoSquelchLevel ≠
        dwellState0.originalSquelchLevel) := by
  decide

/-- C5, counterexample: an 8-bin spectrum with the region of interest at
the left edge (center bin 0, 1-bin ROI, 1-bin guard, 1-bin reference).
The code's `max(0, .)` clamp turns the out-of-range low reference range
into the single bin 0 - the ROI bin itself - so the noise floor is the
median of `{-70, -80} = -75` and the -70 dB peak is rejected, while the
spec's reference regions (clipped, the low one empty) give a noise floor
of -80 and a detection. -/
theorem getMaxLevelCFAR_edge_reference_mismatch :
    getMaxLevelCFAR
        [some (-70), some (-80), some (-80), some (-80),
          some (-80), some (-80), some (-80), some (-80)] 0 1 1 1 8 =
      ⟨-70, -75, false⟩ ∧
    specMaxLevelCFAR
        [some (-70), some (-80), some (-80), some (-80),
          some (-80), some (-80), some (-80), some (-80)] 0 1 1 1 8 =
      ⟨-70, -80, true⟩ ∧
    (getMaxLevelCFAR
        [some (-70), some (-80), some (-80), some (-80),
          some (-80), some (-80), some (-80), some (-80)] 0 1 1 1 8).detected ≠
      (specMaxLevelCFAR
        [some (-70), some (-80), some (-80), some (-80),
          some (-80), some (-80), some (-80), some (-80)] 0 1 1 1 8).detected := by
  with_unfolding_all decide

/-- C5, amended: whenever both raw reference regions lie inside
`[0, N-1]` (no edge clamping; guard nonnegative, reference width at
least one bin, center inside the spectrum), the code's noise floor is
exactly the median of the finite values of the two reference regions
outside the guard band and the detection decision is
`maxSignal >= noise + T && maxSignal > -90`, i.e. the code agrees with
the spec's detector; near the spectrum edges the clamped degenerate
ranges may instead contribute guard or ROI bins to the reference set. -/
theorem getMaxLevelCFAR_matches_spec_away_from_edges
    (data : List (Option ℚ)) (center widthBins guardBins refBins : ℤ) (T : ℚ)
    (hW : 0 < data.length)
    (hc0 : 0 ≤ center) (hc1 : center ≤ (data.length : ℤ) - 1)
    (hw : 0 ≤ widthBins) (hg : 0 ≤ guardBins) (hr : 1 ≤ refBins)
    (hlow : 0 ≤ max 0 (center - widthBins.tdiv 2) - guardBins - refBins)
    (hhigh : min ((data.length : ℤ) - 1) (center + widthBins.tdiv 2) + guardBins + refBins ≤
      (data.length : ℤ) - 1) :
    getMaxLevelCFAR data center widthBins guardBins refBins T =
      specMaxLevelCFAR data center widthBins guardBins refBins T := by
  have hw2 : 0 ≤ widthBins.tdiv 2 := Int.tdiv_nonneg hw (by norm_num)
  have hW' : (1 : ℤ) ≤ (data.length : ℤ) := by exact_mod_cast hW
  simp only [getMaxLevelCFAR, specMaxLevelCFAR]
  set W : ℤ := (data.length : ℤ) with hWdef
  set w2 : ℤ := widthBins.tdiv 2 with hw2def
  set ls : ℤ := max 0 (center - w2) with hlsdef
  set hs : ℤ := min (W - 1) (center + w2) with hhsdef
  have hls0 : 0 ≤ ls := le_max_left 0 _
  have hls1 : ls ≤ W - 1 := max_le (by omega) (by omega)
  have hhs0 : 0 ≤ hs := le_min (by omega) (by omega)
  have hreg : codeRefRegions W ls hs guardBins refBins =
      specRefRegions W ls hs guardBins refBins := by
    simp only [codeRefRegions, specRefRegions]
    rw [max_eq_right (by omega : (0 : ℤ) ≤ ls - guardBins - refBins),
        max_eq_right (by omega : (0 : ℤ) ≤ ls - guardBins - 1),
        min_eq_right (by omega : ls - guardBins - 1 ≤ W - 1),
        min_eq_right (by omega : hs + guardBins + 1 ≤ W - 1),
        min_eq_right (by omega : hs + guardBins + refBins ≤ W - 1),
        max_eq_right (by omega : (0 : ℤ) ≤ hs + guardBins + 1)]
  rw [hreg]

/-- C5 witness: a 9-bin spectrum with the region of interest well inside
the spectrum, where the amended equivalence applies. -/
theorem getMaxLevelCFAR_matches_spec_away_from_edges_witness :
    (0 < ([some (-80), some (-80), some (-80), some (-80), some (-70),
            some (-80), some (-80), some (-80), some (-80)] :
          List (Option ℚ)).length ∧
      (0 : ℤ) ≤ 4 ∧ (4 : ℤ) ≤ 9 - 1 ∧ (0 : ℤ) ≤ 1 ∧ (0 : ℤ) ≤ 1 ∧ (1 : ℤ) ≤ 1 ∧
      (0 : ℤ) ≤ max 0 (4 - (1 : ℤ).tdiv 2) - 1 - 1 ∧
      min ((9 : ℤ) - 1) (4 + (1 : ℤ).tdiv 2) + 1 + 1 ≤ (9 : ℤ) - 1) ∧
    getMaxLevelCFAR
        [some (-80), some (-80), some (-80), some (-80), some (-70),
          some (-80), some (-80), some (-80), some (-80)] 4 1 1 1 8 =
      specMaxLevelCFAR
        [some (-80), some (-80), some (-80), some (-80), some (-70),
          some (-80), some (-80), some (-80), some (-80)] 4 1 1 1 8 :=
  ⟨⟨by decide, by decide, by decide, by decide, by decide, by decide, by decide, by decide⟩,
    getMaxLevelCFAR_matches_spec_away_from_edges _ 4 1 1 1 8 (by decide) (by decide)
      (by decide) (by decide) (by decide) (by decide) (by decide) (by decide)⟩

/-- C10: a frame whose samples all have `|re| <= 1e-6` and `|im| <= 1e-6`
fails the validity scan of `processFrame`, which returns `false` with the
state unchanged: no FFT output is produced, no EMA update happens, none
of the three PSD buffers is touched and the read/write/process indices
do not rotate, so a silent input stream never publishes a new
spectrum. -/
theorem processFrame_silent_frame_noop (frame : List (ℚ × ℚ)) (s : PsdState)
    (h : ∀ z ∈ frame, |z.1| ≤ 1 / 1000000 ∧ |z.2| ≤ 1 / 1000000) :
    processFrame frame s = (false, s) := by
  have hv : hasValidData s.fftSize frame = false := by
    unfold hasValidData
    rw [List.any_eq_false]
    intro z hz
    have hz' := h z (List.mem_of_mem_take hz)
    simp only [Bool.or_eq_true, decide_eq_true_eq, not_or, not_lt]
    exact ⟨hz'.1, hz'.2⟩
  unfold processFrame
  split
  · rfl
  · rw [hv]
    exact if_pos (by simp)

/-- C10 witness: the one-sample zero frame on a freshly initialized
engine. -/
theorem processFrame_silent_frame_noop_witness :
    (∀ z ∈ [((0 : ℚ), (0 : ℚ))], |z.1| ≤ 1 / 1000000 ∧ |z.2| ≤ 1 / 1000000) ∧
    processFrame [((0 : ℚ), (0 : ℚ))] psdState0 = (false, psdState0) :=
  ⟨by with_unfolding_all decide,
    processFrame_silent_frame_noop [((0 : ℚ), (0 : ℚ))] psdState0
      (by with_unfolding_all decide)⟩

/-- The DC-centering write loop never changes the buffer length. -/
theorem psdWriteLoop_length (N : ℕ) (v : ℕ → ℝ) :
    ∀ (i : ℕ) (buf : List ℝ), (psdWriteLoop N v i buf).length = buf.length := by
  intro i
  induction i with
  | zero => intro buf; rfl
  | succ n ih => intro buf; simp [psdWriteLoop, List.length_set, ih]

/-- The DC-centering index map `k -> (k + N/2) % N` is injective on
`[0, N)`. -/
theorem shiftIdx_inj (N k i : ℕ) (hk : k < N) (hi : i < N)
    (h : (k + N / 2) % N = (i + N / 2) % N) : k = i := by
  have h2 : k % N = i % N := Nat.ModEq.add_right_cancel' (N / 2) h
  rwa [Nat.mod_eq_of_lt hk, Nat.mod_eq_of_lt hi] at h2

/-- After `i` iterations of the write loop, every bin `k < i` reads back
its own value at the DC-centered index. -/
theorem psdWriteLoop_getElem (N : ℕ) (v : ℕ → ℝ) (buf : List ℝ) (hlen : buf.length = N) :
    ∀ i, i ≤ N → ∀ k, k < i →
      (psdWriteLoop N v i buf)[(k + N / 2) % N]? = some (v k) := by
  intro i
  induction i with
  | zero => intro _ k hk; exact absurd hk (Nat.not_lt_zero k)
  | succ n ih =>
      intro hn k hk
      have hN : 0 < N := by omega
      have hlen' : (psdWriteLoop N v n buf).length = N := by
        rw [psdWriteLoop_length]; exact hlen
      by_cases hkn : k = n
      · subst hkn
        show ((psdWriteLoop N v k buf).set ((k + N / 2) % N) (v k))[(k + N / 2) % N]? =
          some (v k)
        exact List.getElem?_set_self (by rw [hlen']; exact Nat.mod_lt _ hN)
      · have hne : (n + N / 2) % N ≠ (k + N / 2) % N := fun hEq =>
          hkn (shiftIdx_inj N k n (by omega) (by omega) hEq.symm)
        show ((psdWriteLoop N v n buf).set ((n + N / 2) % N) (v n))[(k + N / 2) % N]? =
          some (v k)
        rw [List.getElem?_set_ne hne]
        exact ih (by omega) k (by omega)

/-- C3, amended: for every frame, window type and bin `k < N`, the value
the spectral stage of `processFrame` stores at the DC-centered index
`(k + N/2) % N` of the write buffer is
`10*log10(max(1e-15, X[k].re^2 + X[k].im^2)) - 20*log10(N)` for
`X = FFT(frame .* window)` - the waterfall dB scaling with the `1e-15`
floor applied before a `1/N^2` power normalization; the window-power
factor `psd_scale = 1/(N*U)` is computed by `generateWindow` but not
used here. -/
theorem psdWriteBuf_dc_centered_waterfall_db (t : WindowType) (N : ℕ) (frame : ℕ → ℂ)
    (buf : List ℝ) (hlen : buf.length = N) (k : ℕ) (hk : k < N) :
    (psdWriteBuf N (fun i => codeBinDb N (dftOut N (windowedInput t N frame) i))
        buf)[(k + N / 2) % N]? =
      some (codeBinDb N (dftOut N (windowedInput t N frame) k)) :=
  psdWriteLoop_getElem N _ buf hlen N le_rfl k hk

/-- C3 witness: `N = 2`, rectangular window, all-ones frame, bin 0. -/
theorem psdWriteBuf_dc_centered_waterfall_db_witness :
    ([(-200 : ℝ), -200].length = 2 ∧ 0 < 2) ∧
    (psdWriteBuf 2
        (fun i => codeBinDb 2 (dftOut 2 (windowedInput .RECTANGULAR 2 fun _ => 1) i))
        [(-200 : ℝ), -200])[(0 + 2 / 2) % 2]? =
      some (codeBinDb 2 (dftOut 2 (windowedInput .RECTANGULAR 2 fun _ => 1) 0)) :=
  ⟨⟨by simp, by norm_num⟩,
    psdWriteBuf_dc_centered_waterfall_db .RECTANGULAR 2 (fun _ => 1) [(-200 : ℝ), -200]
      (by simp) 0 (by norm_num)⟩

/-- The DFT of the all-ones length-2 rectangular-windowed frame at bin 0
is 2. -/
theorem dftOut_ones_two_zero :
    dftOut 2 (windowedInput .RECTANGULAR 2 fun _ => 1) 0 = 2 := by
  unfold dftOut windowedInput windowVal
  simp [Finset.sum_range_succ]

/-- C3, counterexample: with `N = 2`, the rectangular window and the
all-ones frame, the write buffer holds `0` at the DC-centered index of
bin 0 (the code's value `10*log10(4) - 20*log10(2)`), while the claimed
formula `10*log10(max(|X[0]|^2 * psd_scale, 1e-20))` with
`psd_scale = 1/(N*U) = 1/2` evaluates to `10*log10(2) > 0`: `processFrame`
never multiplies by `psd_scale`. -/
theorem processFrame_psd_scale_not_applied :
    (psdWriteBuf 2
        (fun i => codeBinDb 2 (dftOut 2 (windowedInput .RECTANGULAR 2 fun _ => 1) i))
        [(-200 : ℝ), -200])[(0 + 2 / 2) % 2]? ≠
      some (claimBinDb .RECTANGULAR 2 (dftOut 2 (windowedInput .RECTANGULAR 2 fun _ => 1) 0)) := by
  have hlhs : (psdWriteBuf 2
      (fun i => codeBinDb 2 (dftOut 2 (windowedInput .RECTANGULAR 2 fun _ => 1) i))
      [(-200 : ℝ), -200])[(0 + 2 / 2) % 2]? =
      some (codeBinDb 2 (dftOut 2 (windowedInput .RECTANGULAR 2 fun _ => 1) 0)) :=
    psdWriteLoop_getElem 2 _ _ (by simp) 2 le_rfl 0 (by norm_num)
  have hcode : codeBinDb 2 2 = 0 := by
    unfold codeBinDb
    rw [Complex.normSq_apply]
    norm_num
    rw [show (4 : ℝ) = 2 ^ 2 by norm_num, Real.logb_pow]
    ring
  have hclaim : claimBinDb .RECTANGULAR 2 (2 : ℂ) = 10 * Real.logb 10 2 := by
    unfold claimBinDb psdScale windowU windowVal
    rw [Complex.normSq_apply]
    norm_num [Finset.sum_range_succ]
  have hpos : 0 < Real.logb 10 2 := Real.logb_pos (by norm_num) (by norm_num)
  rw [hlhs, dftOut_ones_two_zero, hcode, hclaim]
  simp only [ne_eq, Option.some.injEq]
  intro hEq
  linarith

end ScannerCE
